import Mathlib

set_option linter.unusedVariables false

/-!
Shallow embedding of `scripts/firewall.py`: a CLI that adds, lists and
deletes firewall rules of a Tencent Cloud lighthouse instance.  The remote
API calls (DescribeFirewallRules, CreateFirewallRules, DeleteFirewallRules)
and the HTTP transport of the IP resolver are modelled as oracle
parameters; the mutation requests the program sends are returned as an
explicit trace.
-/

/-- One firewall rule as the program reads it from the JSON response.  The
source accesses every field with `dict.get`, which returns None for a
missing key, so each field is optional. -/
structure Rule where
  Protocol : Option String
  Port : Option String
  CidrBlock : Option String
  Action : Option String
  FirewallRuleDescription : Option String
deriving Repr, DecidableEq

/-- The part of the DescribeFirewallRules response dictionary that the
program reads: the rule set and the request id. -/
structure DescribeResp where
  FirewallRuleSet : List Rule
  RequestId : String
deriving Repr, DecidableEq

/-- The code/message/requestId dictionary: both the structured SDK error
and the success-message dictionaries built by the program have this shape. -/
structure MsgDict where
  code : String
  message : String
  requestId : String
deriving Repr, DecidableEq

/-- Return value of `ls_firewall_rule`: the Python `(bool, dict)` pair,
where True pairs with the (filtered) response dictionary and False with the
error dictionary. -/
inductive LsResult where
  | ok (resp : DescribeResp)
  | err (e : MsgDict)
deriving Repr, DecidableEq

/-- The rule set carried by an `ls_firewall_rule` result (empty on error). -/
def LsResult.ruleSet : LsResult → List Rule
  | .ok resp => resp.FirewallRuleSet
  | .err _ => []

/-- A mutation request sent to the remote API, with the parameters the
program fills into it. -/
inductive Request where
  | create (instanceId : String) (rules : List Rule)
  | delete (instanceId : String) (rules : List Rule)
deriving Repr, DecidableEq

/-- Outcome of `add_firewall_rule` / `del_firewall_rule`: the Python
`(bool, dict)` pair returned, together with the trace of mutation requests
sent to the remote API during the call. -/
structure OpOutcome where
  ok : Bool
  resp : MsgDict
  mutations : List Request
deriving Repr, DecidableEq

/-- The constraint a criterion imposes on a rule field: None imposes no
constraint, `some s` requires the `dict.get` value to equal `s`. -/
def matchOpt (c : Option String) (v : Option String) : Bool :=
  match c with
  | none => true
  | some s => v == some s

/-- Conjunction of the five per-field exact-match constraints. -/
def ruleMatches (protocol port source action description : Option String)
    (x : Rule) : Bool :=
  matchOpt protocol x.Protocol && matchOpt port x.Port &&
    matchOpt source x.CidrBlock && matchOpt action x.Action &&
    matchOpt description x.FirewallRuleDescription

/-- The filtering block of `ls_firewall_rule` (source lines 126-137): each
criterion that is not None filters the rule set in turn, comparing the
`dict.get` value of its field for equality. -/
def filterRuleSet (protocol port source action description : Option String)
    (ruleSet : List Rule) : List Rule :=
  let rs1 := match protocol with
    | none => ruleSet
    | some v => ruleSet.filter (fun x => x.Protocol == some v)
  let rs2 := match port with
    | none => rs1
    | some v => rs1.filter (fun x => x.Port == some v)
  let rs3 := match source with
    | none => rs2
    | some v => rs2.filter (fun x => x.CidrBlock == some v)
  let rs4 := match action with
    | none => rs3
    | some v => rs3.filter (fun x => x.Action == some v)
  match description with
  | none => rs4
  | some v => rs4.filter (fun x => x.FirewallRuleDescription == some v)

/-- `ls_firewall_rule`: fetch the rule set (the remote call is the
`describe` oracle), then filter; an SDK exception is returned as the error
dictionary. -/
def ls_firewall_rule (describe : Except MsgDict DescribeResp)
    (protocol port source action description : Option String) : LsResult :=
  match describe with
  | .ok resp =>
    .ok { FirewallRuleSet :=
            filterRuleSet protocol port source action description resp.FirewallRuleSet,
          RequestId := resp.RequestId }
  | .error e => .err e

/-- The apostrophe character U+0027, used by the already-exists message. -/
def apos : String := String.mk [Char.ofNat 39]

/-- The already-exists message built at source line 60 (Python tuple-style
rendering of the four identity fields). -/
def alreadyExistsMsg (protocol port source action : String) : String :=
  "防火墙规则 `[(" ++ apos ++ protocol ++ apos ++ ", " ++ apos ++ port ++ apos ++ ", " ++
    apos ++ source ++ apos ++ ", " ++ apos ++ action ++ apos ++ ")]` 已经存在。"

/-- Python `str.format` renders None as the text "None". -/
def pyFormatOptStr : Option String → String
  | none => "None"
  | some s => s

/-- `add_firewall_rule`: query with description = None; if the query fails,
return its error; if at least one rule matches, return success with the
already-exists message and mutate nothing; otherwise send one
CreateFirewallRules request carrying all five fields. -/
def add_firewall_rule (describe : Except MsgDict DescribeResp)
    (create : Except MsgDict String) (instanceId : String)
    (protocol port : String) (source : Option String)
    (action description : String) : OpOutcome :=
  match ls_firewall_rule describe (some protocol) (some port) source (some action) none with
  | .err e => { ok := false, resp := e, mutations := [] }
  | .ok resp =>
    let rules_matched := resp.FirewallRuleSet
    if rules_matched.length ≥ 1 then
      { ok := true,
        resp := { code := "ok",
                  message := alreadyExistsMsg protocol port (pyFormatOptStr source) action,
                  requestId := resp.RequestId },
        mutations := [] }
    else
      let newRule : Rule :=
        { Protocol := some protocol, Port := some port, CidrBlock := source,
          Action := some action, FirewallRuleDescription := some description }
      match create with
      | .ok reqId =>
        { ok := true,
          resp := { code := "ok", message := "Add 1 rules", requestId := reqId },
          mutations := [Request.create instanceId [newRule]] }
      | .error e =>
        { ok := false, resp := e, mutations := [Request.create instanceId [newRule]] }

/-- `del_firewall_rule`: query with the full criteria; if the query fails,
return its error; zero matches is a successful no-op; otherwise send one
DeleteFirewallRules request carrying exactly the matched rules. -/
def del_firewall_rule (describe : Except MsgDict DescribeResp)
    (delete : Except MsgDict String) (instanceId : String)
    (protocol port source action description : Option String) : OpOutcome :=
  match ls_firewall_rule describe protocol port source action description with
  | .err e => { ok := false, resp := e, mutations := [] }
  | .ok resp =>
    let rules_matched := resp.FirewallRuleSet
    if rules_matched.length == 0 then
      { ok := true,
        resp := { code := "ok", message := "No rules matched",
                  requestId := resp.RequestId },
        mutations := [] }
    else
      match delete with
      | .ok reqId =>
        { ok := true,
          resp := { code := "ok",
                    message := "Deleted " ++ toString rules_matched.length ++ " rules",
                    requestId := reqId },
          mutations := [Request.delete instanceId rules_matched] }
      | .error e =>
        { ok := false, resp := e, mutations := [Request.delete instanceId rules_matched] }

/-- An HTTP response as the program reads it: status code and body text. -/
structure HttpResp where
  status_code : Nat
  text : String
deriving Repr, DecidableEq

/-- The ordered provider list of `get_internet_ip` (the second entry of the
source is commented out). -/
def tellers : List String := ["https://api-ipv4.ip.sb/ip"]

/-- The newline character. -/
def nl : Char := Char.ofNat 10

/-- Python `str.strip(c)`: remove every leading and trailing occurrence of
the character `c`. -/
def pyStrip (c : Char) (s : String) : String :=
  String.mk (((s.toList.dropWhile (fun x => x == c)).reverse.dropWhile
    (fun x => x == c)).reverse)

/-- Removal of only the trailing occurrences of `c`: the literal reading of
the specification text "trimmed of trailing newline", kept for comparison
with the `str.strip` call of the source. -/
def rstrip (c : Char) (s : String) : String :=
  String.mk ((s.toList.reverse.dropWhile (fun x => x == c)).reverse)

/-- The provider loop of `get_internet_ip`: try each URL in order and
return the stripped body of the first response with status 200, else None. -/
def fetchFirstIp (http : String → HttpResp) : List String → Option String
  | [] => none
  | url :: rest =>
    let r := http url
    if r.status_code == 200 then some (pyStrip nl r.text) else fetchFirstIp http rest

/-- `get_internet_ip`: resolve the current public IP by iterating the
teller list once.  The HTTP transport is the `http` oracle. -/
def get_internet_ip (http : String → HttpResp) : Option String :=
  fetchFirstIp http tellers

/-- The source-resolution step of `main` (source lines 321-322): a literal
"dynamic" source is replaced by the result of `get_internet_ip`, which may
be None; any other source is passed through. -/
def resolveSource (http : String → HttpResp) (source : String) : Option String :=
  if source == "dynamic" then get_internet_ip http else some source

theorem filterRuleSet_eq_filter (pc qc sc ac dc : Option String) (rs : List Rule) :
    filterRuleSet pc qc sc ac dc rs = rs.filter (fun x => ruleMatches pc qc sc ac dc x) := by
  cases pc <;> cases qc <;> cases sc <;> cases ac <;> cases dc <;>
    simp [filterRuleSet, ruleMatches, matchOpt, List.filter_filter, Bool.and_assoc] <;>
    exact List.filter_congr fun a ha => by
      simp [Bool.and_comm, Bool.and_left_comm, Bool.and_assoc]

theorem fetchFirstIp_eq_find (http : String → HttpResp) (urls : List String) :
    fetchFirstIp http urls =
      (urls.find? (fun u => (http u).status_code == 200)).map
        (fun u => pyStrip nl (http u).text) := by
  induction urls with
  | nil => rfl
  | cons u rest ih =>
    by_cases hc : ((http u).status_code == 200) = true
    · simp [fetchFirstIp, List.find?, hc]
    · simp [fetchFirstIp, List.find?, hc, ih]

theorem get_internet_ip_none_of_all_fail (http : String → HttpResp)
    (h : ∀ u ∈ tellers, (http u).status_code ≠ 200) :
    get_internet_ip http = none := by
  have h1 : (http "https://api-ipv4.ip.sb/ip").status_code ≠ 200 :=
    h _ (by simp [tellers])
  simp [get_internet_ip, tellers, fetchFirstIp, h1]

/-- C1: for every fetched rule set, `ls_firewall_rule` returns exactly the
rules on which every non-None criterion equals the corresponding rule field,
and with all five criteria unset it returns the fetched rule set unmodified. -/
theorem ls_firewall_rule_conjunctive_filter (resp : DescribeResp)
    (pc qc sc ac dc : Option String) :
    ls_firewall_rule (Except.ok resp) pc qc sc ac dc =
      LsResult.ok ⟨resp.FirewallRuleSet.filter (fun x => ruleMatches pc qc sc ac dc x),
        resp.RequestId⟩ ∧
    ls_firewall_rule (Except.ok resp) none none none none none = LsResult.ok resp := by
  constructor
  · simp [ls_firewall_rule, filterRuleSet_eq_filter]
  · rfl

/-- C7: a failure of the remote call short-circuits: `ls_firewall_rule`
returns the structured error (code, message, request id) without filtering,
and `add_firewall_rule` / `del_firewall_rule` return the failed query result
unchanged with no mutation request sent. -/
theorem remote_failure_short_circuits (e : MsgDict) :
    (∀ pc qc sc ac dc, ls_firewall_rule (Except.error e) pc qc sc ac dc = LsResult.err e) ∧
    (∀ (create : Except MsgDict String) (instanceId protocol port action description : String)
        (source : Option String),
      add_firewall_rule (Except.error e) create instanceId protocol port source
          action description =
        { ok := false, resp := e, mutations := [] }) ∧
    (∀ (delete : Except MsgDict String) (instanceId : String) (pc qc sc ac dc : Option String),
      del_firewall_rule (Except.error e) delete instanceId pc qc sc ac dc =
        { ok := false, resp := e, mutations := [] }) :=
  ⟨fun _ _ _ _ _ => rfl, fun _ _ _ _ _ _ _ => rfl, fun _ _ _ _ _ _ _ => rfl⟩

/-- C9: filtering is total over arbitrary fetched rules: on a successful
fetch no error is produced, the result is a sublist of the fetched set in
its order, and a rule lacking a field whose criterion is non-None is
excluded from the result. -/
theorem ls_firewall_rule_total_on_partial_rules (resp : DescribeResp)
    (pc qc sc ac dc : Option String) (r : Rule)
    (hmiss : (pc ≠ none ∧ r.Protocol = none) ∨ (qc ≠ none ∧ r.Port = none) ∨
      (sc ≠ none ∧ r.CidrBlock = none) ∨ (ac ≠ none ∧ r.Action = none) ∨
      (dc ≠ none ∧ r.FirewallRuleDescription = none)) :
    (∃ out, ls_firewall_rule (Except.ok resp) pc qc sc ac dc = LsResult.ok out) ∧
    List.Sublist ((ls_firewall_rule (Except.ok resp) pc qc sc ac dc).ruleSet)
      resp.FirewallRuleSet ∧
    r ∉ (ls_firewall_rule (Except.ok resp) pc qc sc ac dc).ruleSet := by
  refine ⟨⟨_, rfl⟩, ?_, ?_⟩
  · show List.Sublist (filterRuleSet pc qc sc ac dc resp.FirewallRuleSet) resp.FirewallRuleSet
    rw [filterRuleSet_eq_filter]
    exact List.filter_sublist _
  · show r ∉ filterRuleSet pc qc sc ac dc resp.FirewallRuleSet
    rw [filterRuleSet_eq_filter]
    intro hmem
    have hp := (List.mem_filter.mp hmem).2
    rcases hmiss with ⟨h1, h2⟩ | ⟨h1, h2⟩ | ⟨h1, h2⟩ | ⟨h1, h2⟩ | ⟨h1, h2⟩ <;>
    · obtain ⟨v, hv⟩ := Option.ne_none_iff_exists'.mp h1
      rw [hv] at hp
      simp [ruleMatches, matchOpt, h2] at hp

/-- Witness for C9: a rule with no fields at all is excluded when the
protocol criterion is set, and the result is a sublist of the fetched set. -/
theorem ls_firewall_rule_total_on_partial_rules_witness :
    (((some "TCP" : Option String) ≠ none ∧
        (Rule.mk none none none none none).Protocol = none) ∨
      ((none : Option String) ≠ none ∧ (Rule.mk none none none none none).Port = none) ∨
      ((none : Option String) ≠ none ∧ (Rule.mk none none none none none).CidrBlock = none) ∨
      ((none : Option String) ≠ none ∧ (Rule.mk none none none none none).Action = none) ∨
      ((none : Option String) ≠ none ∧
        (Rule.mk none none none none none).FirewallRuleDescription = none)) ∧
    Rule.mk none none none none none ∉
      (ls_firewall_rule (Except.ok ⟨[Rule.mk none none none none none], "rid-0"⟩)
        (some "TCP") none none none none).ruleSet :=
  ⟨Or.inl ⟨by decide, rfl⟩,
    (ls_firewall_rule_total_on_partial_rules ⟨[Rule.mk none none none none none], "rid-0"⟩
      (some "TCP") none none none none (Rule.mk none none none none none)
      (Or.inl ⟨by decide, rfl⟩)).2.2⟩

/-- C2: the existence check of `add_firewall_rule` queries with the four
fields protocol, port, source and action and with description = None, so a
rule agreeing on those four fields but differing in description counts as a
duplicate and no create request is sent. -/
theorem add_firewall_rule_ignores_description (resp : DescribeResp)
    (create : Except MsgDict String)
    (instanceId protocol port src action description : String) (r : Rule)
    (hr : r ∈ resp.FirewallRuleSet)
    (hp : r.Protocol = some protocol) (hq : r.Port = some port)
    (hs : r.CidrBlock = some src) (ha : r.Action = some action)
    (hd : r.FirewallRuleDescription ≠ some description) :
    add_firewall_rule (Except.ok resp) create instanceId protocol port (some src)
        action description =
      { ok := true,
        resp := { code := "ok",
                  message := alreadyExistsMsg protocol port src action,
                  requestId := resp.RequestId },
        mutations := [] } := by
  have hmatch : ruleMatches (some protocol) (some port) (some src) (some action) none r
      = true := by
    simp [ruleMatches, matchOpt, hp, hq, hs, ha]
  have hlen : (resp.FirewallRuleSet.filter
      (fun x => ruleMatches (some protocol) (some port) (some src) (some action) none x)).length
        ≥ 1 := by
    have hmem : r ∈ resp.FirewallRuleSet.filter
        (fun x => ruleMatches (some protocol) (some port) (some src) (some action) none x) :=
      List.mem_filter.mpr ⟨hr, hmatch⟩
    have := List.length_pos.mpr (List.ne_nil_of_mem hmem)
    omega
  simp [add_firewall_rule, ls_firewall_rule, filterRuleSet_eq_filter, hlen, pyFormatOptStr]

/-- Witness for C2: an existing rule differing only in its description
blocks the creation of a new rule. -/
theorem add_firewall_rule_ignores_description_witness :
    (Rule.mk (some "TCP") (some "22") (some "0.0.0.0/0") (some "ACCEPT") (some "desc-B") ∈
        (DescribeResp.mk
          [Rule.mk (some "TCP") (some "22") (some "0.0.0.0/0") (some "ACCEPT") (some "desc-B")]
          "rid-1").FirewallRuleSet ∧
      (Rule.mk (some "TCP") (some "22") (some "0.0.0.0/0") (some "ACCEPT")
        (some "desc-B")).FirewallRuleDescription ≠ some "desc-A") ∧
    add_firewall_rule
        (Except.ok (DescribeResp.mk
          [Rule.mk (some "TCP") (some "22") (some "0.0.0.0/0") (some "ACCEPT") (some "desc-B")]
          "rid-1"))
        (Except.ok "rid-2") "inst-1" "TCP" "22" (some "0.0.0.0/0") "ACCEPT" "desc-A" =
      { ok := true,
        resp := { code := "ok",
                  message := alreadyExistsMsg "TCP" "22" "0.0.0.0/0" "ACCEPT",
                  requestId := "rid-1" },
        mutations := [] } :=
  ⟨⟨by decide, by decide⟩,
    add_firewall_rule_ignores_description
      (DescribeResp.mk
        [Rule.mk (some "TCP") (some "22") (some "0.0.0.0/0") (some "ACCEPT") (some "desc-B")]
        "rid-1")
      (Except.ok "rid-2") "inst-1" "TCP" "22" "0.0.0.0/0" "ACCEPT" "desc-A"
      (Rule.mk (some "TCP") (some "22") (some "0.0.0.0/0") (some "ACCEPT") (some "desc-B"))
      (by decide) rfl rfl rfl rfl (by decide)⟩

/-- C3: when the existence query succeeds and matches at least one rule,
`add_firewall_rule` returns success with the already-exists message and
sends no create request; moreover a second add that sees the rule created
by a first add with the same protocol, port, source and action succeeds
without sending any create request. -/
theorem add_firewall_rule_duplicate_idempotent (resp : DescribeResp)
    (create : Except MsgDict String)
    (instanceId protocol port action description : String) (source : Option String)
    (h : (resp.FirewallRuleSet.filter
      (fun x => ruleMatches (some protocol) (some port) source (some action) none x)).length
        ≥ 1) :
    add_firewall_rule (Except.ok resp) create instanceId protocol port source
        action description =
      { ok := true,
        resp := { code := "ok",
                  message := alreadyExistsMsg protocol port (pyFormatOptStr source) action,
                  requestId := resp.RequestId },
        mutations := [] } ∧
    ∀ (resp2 : DescribeResp) (create2 : Except MsgDict String) (desc2 : String),
      ({ Protocol := some protocol, Port := some port, CidrBlock := source,
         Action := some action, FirewallRuleDescription := some desc2 } : Rule) ∈
          resp2.FirewallRuleSet →
      (add_firewall_rule (Except.ok resp2) create2 instanceId protocol port source
          action description).ok = true ∧
      (add_firewall_rule (Except.ok resp2) create2 instanceId protocol port source
          action description).mutations = [] := by
  constructor
  · simp [add_firewall_rule, ls_firewall_rule, filterRuleSet_eq_filter, h]
  · intro resp2 create2 desc2 hmem
    have hmatch : ruleMatches (some protocol) (some port) source (some action) none
        { Protocol := some protocol, Port := some port, CidrBlock := source,
          Action := some action, FirewallRuleDescription := some desc2 } = true := by
      cases source <;> simp [ruleMatches, matchOpt]
    have hlen2 : (resp2.FirewallRuleSet.filter
        (fun x => ruleMatches (some protocol) (some port) source (some action) none x)).length
          ≥ 1 := by
      have hmem2 : Rule.mk (some protocol) (some port) source (some action) (some desc2) ∈
          resp2.FirewallRuleSet.filter
            (fun x => ruleMatches (some protocol) (some port) source (some action) none x) :=
        List.mem_filter.mpr ⟨hmem, hmatch⟩
      have := List.length_pos.mpr (List.ne_nil_of_mem hmem2)
      omega
    simp [add_firewall_rule, ls_firewall_rule, filterRuleSet_eq_filter, hlen2]

/-- Witness for C3: adding over an existing identical rule succeeds with
the already-exists message and no mutation. -/
theorem add_firewall_rule_duplicate_idempotent_witness :
    ((DescribeResp.mk
        [Rule.mk (some "TCP") (some "22") (some "0.0.0.0/0") (some "ACCEPT") (some "old")]
        "rid-1").FirewallRuleSet.filter
      (fun x => ruleMatches (some "TCP") (some "22") (some "0.0.0.0/0") (some "ACCEPT")
        none x)).length ≥ 1 ∧
    add_firewall_rule
        (Except.ok (DescribeResp.mk
          [Rule.mk (some "TCP") (some "22") (some "0.0.0.0/0") (some "ACCEPT") (some "old")]
          "rid-1"))
        (Except.ok "rid-2") "inst-1" "TCP" "22" (some "0.0.0.0/0") "ACCEPT" "new" =
      { ok := true,
        resp := { code := "ok",
                  message := alreadyExistsMsg "TCP" "22"
                    (pyFormatOptStr (some "0.0.0.0/0")) "ACCEPT",
                  requestId := "rid-1" },
        mutations := [] } :=
  ⟨by decide,
    (add_firewall_rule_duplicate_idempotent
      (DescribeResp.mk
        [Rule.mk (some "TCP") (some "22") (some "0.0.0.0/0") (some "ACCEPT") (some "old")]
        "rid-1")
      (Except.ok "rid-2") "inst-1" "TCP" "22" "ACCEPT" "new" (some "0.0.0.0/0")
      (by decide)).1⟩

/-- C4: `del_firewall_rule` with a successful query matching zero rules
returns success with the "No rules matched" message and sends no delete
request, so repeated deletes with the same criteria are a no-op. -/
theorem del_firewall_rule_no_match_noop (resp : DescribeResp)
    (delete : Except MsgDict String) (instanceId : String)
    (pc qc sc ac dc : Option String)
    (h : resp.FirewallRuleSet.filter (fun x => ruleMatches pc qc sc ac dc x) = []) :
    del_firewall_rule (Except.ok resp) delete instanceId pc qc sc ac dc =
      { ok := true,
        resp := { code := "ok", message := "No rules matched",
                  requestId := resp.RequestId },
        mutations := [] } := by
  simp [del_firewall_rule, ls_firewall_rule, filterRuleSet_eq_filter, h]

/-- Witness for C4: deleting with a protocol criterion no rule satisfies
succeeds with "No rules matched" and no mutation. -/
theorem del_firewall_rule_no_match_noop_witness :
    (DescribeResp.mk
        [Rule.mk (some "TCP") (some "22") (some "0.0.0.0/0") (some "ACCEPT") (some "d")]
        "rid-3").FirewallRuleSet.filter
      (fun x => ruleMatches (some "UDP") none none none none x) = [] ∧
    del_firewall_rule
        (Except.ok (DescribeResp.mk
          [Rule.mk (some "TCP") (some "22") (some "0.0.0.0/0") (some "ACCEPT") (some "d")]
          "rid-3"))
        (Except.ok "rid-4") "inst-1" (some "UDP") none none none none =
      { ok := true,
        resp := { code := "ok", message := "No rules matched", requestId := "rid-3" },
        mutations := [] } :=
  ⟨by decide,
    del_firewall_rule_no_match_noop
      (DescribeResp.mk
        [Rule.mk (some "TCP") (some "22") (some "0.0.0.0/0") (some "ACCEPT") (some "d")]
        "rid-3")
      (Except.ok "rid-4") "inst-1" (some "UDP") none none none none (by decide)⟩

/-- C5: `del_firewall_rule` with a successful query matching at least one
rule sends exactly one delete request carrying exactly the matched rule
set; on success it reports a count equal to the number of matched rules,
and otherwise it propagates the remote error. -/
theorem del_firewall_rule_deletes_matched (resp : DescribeResp)
    (delete : Except MsgDict String) (instanceId : String)
    (pc qc sc ac dc : Option String)
    (h : resp.FirewallRuleSet.filter (fun x => ruleMatches pc qc sc ac dc x) ≠ []) :
    (del_firewall_rule (Except.ok resp) delete instanceId pc qc sc ac dc).mutations =
      [Request.delete instanceId
        (resp.FirewallRuleSet.filter (fun x => ruleMatches pc qc sc ac dc x))] ∧
    (∀ reqId, delete = Except.ok reqId →
      del_firewall_rule (Except.ok resp) delete instanceId pc qc sc ac dc =
        { ok := true,
          resp := { code := "ok",
                    message := "Deleted " ++
                      toString (resp.FirewallRuleSet.filter
                        (fun x => ruleMatches pc qc sc ac dc x)).length ++ " rules",
                    requestId := reqId },
          mutations := [Request.delete instanceId
            (resp.FirewallRuleSet.filter (fun x => ruleMatches pc qc sc ac dc x))] }) ∧
    (∀ e, delete = Except.error e →
      del_firewall_rule (Except.ok resp) delete instanceId pc qc sc ac dc =
        { ok := false, resp := e,
          mutations := [Request.delete instanceId
            (resp.FirewallRuleSet.filter (fun x => ruleMatches pc qc sc ac dc x))] }) := by
  refine ⟨?_, ?_, ?_⟩
  · cases delete <;>
      simp [del_firewall_rule, ls_firewall_rule, filterRuleSet_eq_filter, h,
        List.length_eq_zero]
  · intro reqId hdel
    subst hdel
    simp [del_firewall_rule, ls_firewall_rule, filterRuleSet_eq_filter, h,
      List.length_eq_zero]
  · intro e hdel
    subst hdel
    simp [del_firewall_rule, ls_firewall_rule, filterRuleSet_eq_filter, h,
      List.length_eq_zero]

/-- Witness for C5: with two matching rules out of three, the delete
request carries exactly the two matched rules and the message reports a
count of 2. -/
theorem del_firewall_rule_deletes_matched_witness :
    (DescribeResp.mk
        [Rule.mk (some "TCP") (some "22") (some "0.0.0.0/0") (some "ACCEPT") (some "a"),
         Rule.mk (some "TCP") (some "80") (some "0.0.0.0/0") (some "ACCEPT") (some "b"),
         Rule.mk (some "TCP") (some "22") (some "1.2.3.4/32") (some "ACCEPT") (some "c")]
        "rid-5").FirewallRuleSet.filter
      (fun x => ruleMatches (some "TCP") (some "22") none none none x) ≠ [] ∧
    del_firewall_rule
        (Except.ok (DescribeResp.mk
          [Rule.mk (some "TCP") (some "22") (some "0.0.0.0/0") (some "ACCEPT") (some "a"),
           Rule.mk (some "TCP") (some "80") (some "0.0.0.0/0") (some "ACCEPT") (some "b"),
           Rule.mk (some "TCP") (some "22") (some "1.2.3.4/32") (some "ACCEPT") (some "c")]
          "rid-5"))
        (Except.ok "rid-6") "inst-1" (some "TCP") (some "22") none none none =
      { ok := true,
        resp := { code := "ok",
                  message := "Deleted " ++
                    toString ((DescribeResp.mk
                      [Rule.mk (some "TCP") (some "22") (some "0.0.0.0/0") (some "ACCEPT")
                        (some "a"),
                       Rule.mk (some "TCP") (some "80") (some "0.0.0.0/0") (some "ACCEPT")
                        (some "b"),
                       Rule.mk (some "TCP") (some "22") (some "1.2.3.4/32") (some "ACCEPT")
                        (some "c")]
                      "rid-5").FirewallRuleSet.filter
                      (fun x => ruleMatches (some "TCP") (some "22") none none none x)).length
                    ++ " rules",
                  requestId := "rid-6" },
        mutations := [Request.delete "inst-1"
          ((DescribeResp.mk
            [Rule.mk (some "TCP") (some "22") (some "0.0.0.0/0") (some "ACCEPT") (some "a"),
             Rule.mk (some "TCP") (some "80") (some "0.0.0.0/0") (some "ACCEPT") (some "b"),
             Rule.mk (some "TCP") (some "22") (some "1.2.3.4/32") (some "ACCEPT") (some "c")]
            "rid-5").FirewallRuleSet.filter
            (fun x => ruleMatches (some "TCP") (some "22") none none none x))] } :=
  ⟨by decide,
    (del_firewall_rule_deletes_matched
      (DescribeResp.mk
        [Rule.mk (some "TCP") (some "22") (some "0.0.0.0/0") (some "ACCEPT") (some "a"),
         Rule.mk (some "TCP") (some "80") (some "0.0.0.0/0") (some "ACCEPT") (some "b"),
         Rule.mk (some "TCP") (some "22") (some "1.2.3.4/32") (some "ACCEPT") (some "c")]
        "rid-5")
      (Except.ok "rid-6") "inst-1" (some "TCP") (some "22") none none none
      (by decide)).2.1 "rid-6" rfl⟩

/-- C6: `add_firewall_rule` with a successful query matching no rule sends
one create request carrying all five fields; on success it returns the
message "Add 1 rules", and otherwise it propagates the remote error. -/
theorem add_firewall_rule_creates_when_absent (resp : DescribeResp)
    (create : Except MsgDict String)
    (instanceId protocol port action description : String) (source : Option String)
    (h : resp.FirewallRuleSet.filter
      (fun x => ruleMatches (some protocol) (some port) source (some action) none x) = []) :
    (add_firewall_rule (Except.ok resp) create instanceId protocol port source
        action description).mutations =
      [Request.create instanceId
        [Rule.mk (some protocol) (some port) source (some action) (some description)]] ∧
    (∀ reqId, create = Except.ok reqId →
      add_firewall_rule (Except.ok resp) create instanceId protocol port source
          action description =
        { ok := true,
          resp := { code := "ok", message := "Add 1 rules", requestId := reqId },
          mutations := [Request.create instanceId
            [Rule.mk (some protocol) (some port) source (some action) (some description)]] }) ∧
    (∀ e, create = Except.error e →
      add_firewall_rule (Except.ok resp) create instanceId protocol port source
          action description =
        { ok := false, resp := e,
          mutations := [Request.create instanceId
            [Rule.mk (some protocol) (some port) source (some action) (some description)]] }) := by
  refine ⟨?_, ?_, ?_⟩
  · cases create <;>
      simp [add_firewall_rule, ls_firewall_rule, filterRuleSet_eq_filter, h]
  · intro reqId hcr
    subst hcr
    simp [add_firewall_rule, ls_firewall_rule, filterRuleSet_eq_filter, h]
  · intro e hcr
    subst hcr
    simp [add_firewall_rule, ls_firewall_rule, filterRuleSet_eq_filter, h]

/-- Witness for C6: adding against an empty rule set sends one create
request with all five fields and yields "Add 1 rules". -/
theorem add_firewall_rule_creates_when_absent_witness :
    (DescribeResp.mk [] "rid-7").FirewallRuleSet.filter
      (fun x => ruleMatches (some "TCP") (some "22") (some "1.2.3.4/32") (some "ACCEPT")
        none x) = [] ∧
    add_firewall_rule (Except.ok (DescribeResp.mk [] "rid-7")) (Except.ok "rid-8")
        "inst-1" "TCP" "22" (some "1.2.3.4/32") "ACCEPT" "[Tencent SDK]" =
      { ok := true,
        resp := { code := "ok", message := "Add 1 rules", requestId := "rid-8" },
        mutations := [Request.create "inst-1"
          [Rule.mk (some "TCP") (some "22") (some "1.2.3.4/32") (some "ACCEPT")
            (some "[Tencent SDK]")]] } :=
  ⟨rfl,
    (add_firewall_rule_creates_when_absent (DescribeResp.mk [] "rid-7") (Except.ok "rid-8")
      "inst-1" "TCP" "22" "ACCEPT" "[Tencent SDK]" (some "1.2.3.4/32") rfl).2.1 "rid-8" rfl⟩

/-- C8 counterexample: for a 200 response whose body has a leading newline,
`get_internet_ip` (which calls Python str.strip, stripping both ends)
returns "1.2.3.4", not the merely trailing-trimmed text "\n1.2.3.4". -/
theorem get_internet_ip_strips_both_ends :
    get_internet_ip (fun _ => HttpResp.mk 200 "\n1.2.3.4\n") = some "1.2.3.4" ∧
    rstrip nl "\n1.2.3.4\n" = "\n1.2.3.4" ∧
    get_internet_ip (fun _ => HttpResp.mk 200 "\n1.2.3.4\n") ≠
      some (rstrip nl "\n1.2.3.4\n") := by
  refine ⟨rfl, rfl, by decide⟩

/-- C8 (amended): `get_internet_ip` iterates the provider list in order
exactly once and returns, for the first provider whose response has HTTP
status 200, the body text with leading and trailing newlines stripped; any
non-200 response means "try the next provider", and when every provider
fails the result is none. -/
theorem get_internet_ip_first_success (http : String → HttpResp) :
    get_internet_ip http =
      (tellers.find? (fun u => (http u).status_code == 200)).map
        (fun u => pyStrip nl (http u).text) ∧
    ((∀ u ∈ tellers, (http u).status_code ≠ 200) → get_internet_ip http = none) :=
  ⟨fetchFirstIp_eq_find http tellers, get_internet_ip_none_of_all_fail http⟩

/-- Witness for C8 (amended) at a transport where the provider fails. -/
theorem get_internet_ip_first_success_witness :
    (∀ u ∈ tellers, ((fun _ => HttpResp.mk 500 "oops") u).status_code ≠ 200) ∧
    get_internet_ip (fun _ => HttpResp.mk 500 "oops") = none :=
  ⟨fun u hu => by show (500 : Nat) ≠ 200; decide,
    (get_internet_ip_first_success (fun _ => HttpResp.mk 500 "oops")).2
      (fun u hu => by show (500 : Nat) ≠ 200; decide)⟩

/-- C10: when dynamic source resolution is requested and every provider
fails, the resolved source is None; the existence check then ignores the
CidrBlock field entirely, and when no rule matches, the add still proceeds
and the create request carries CidrBlock = None. -/
theorem dynamic_resolution_failure_proceeds (http : String → HttpResp)
    (hfail : ∀ u ∈ tellers, (http u).status_code ≠ 200)
    (resp : DescribeResp) (create : Except MsgDict String)
    (instanceId protocol port action description : String)
    (hempty : resp.FirewallRuleSet.filter
      (fun x => ruleMatches (some protocol) (some port) none (some action) none x) = []) :
    resolveSource http "dynamic" = none ∧
    (∀ (r : Rule) (v : Option String),
      ruleMatches (some protocol) (some port) none (some action) none
        { r with CidrBlock := v } =
      ruleMatches (some protocol) (some port) none (some action) none r) ∧
    (add_firewall_rule (Except.ok resp) create instanceId protocol port
        (resolveSource http "dynamic") action description).mutations =
      [Request.create instanceId
        [Rule.mk (some protocol) (some port) none (some action) (some description)]] := by
  have hres : resolveSource http "dynamic" = none := by
    simp [resolveSource, get_internet_ip_none_of_all_fail http hfail]
  refine ⟨hres, ?_, ?_⟩
  · intro r v
    simp [ruleMatches, matchOpt]
  · rw [hres]
    cases create <;>
      simp [add_firewall_rule, ls_firewall_rule, filterRuleSet_eq_filter, hempty]

/-- Witness for C10: with a failing provider and an empty remote rule set,
the add sends a create request whose CidrBlock is None. -/
theorem dynamic_resolution_failure_proceeds_witness :
    ((∀ u ∈ tellers, ((fun _ => HttpResp.mk 500 "oops") u).status_code ≠ 200) ∧
      (DescribeResp.mk [] "rid-9").FirewallRuleSet.filter
        (fun x => ruleMatches (some "TCP") (some "22") none (some "ACCEPT") none x) = []) ∧
    resolveSource (fun _ => HttpResp.mk 500 "oops") "dynamic" = none ∧
    (add_firewall_rule (Except.ok (DescribeResp.mk [] "rid-9")) (Except.ok "rid-10")
        "inst-1" "TCP" "22" (resolveSource (fun _ => HttpResp.mk 500 "oops") "dynamic")
        "ACCEPT" "[Tencent SDK]").mutations =
      [Request.create "inst-1"
        [Rule.mk (some "TCP") (some "22") none (some "ACCEPT") (some "[Tencent SDK]")]] :=
  ⟨⟨fun u hu => by show (500 : Nat) ≠ 200; decide, rfl⟩,
    (dynamic_resolution_failure_proceeds (fun _ => HttpResp.mk 500 "oops")
      (fun u hu => by show (500 : Nat) ≠ 200; decide) (DescribeResp.mk [] "rid-9") (Except.ok "rid-10")
      "inst-1" "TCP" "22" "ACCEPT" "[Tencent SDK]" rfl).1,
    (dynamic_resolution_failure_proceeds (fun _ => HttpResp.mk 500 "oops")
      (fun u hu => by show (500 : Nat) ≠ 200; decide) (DescribeResp.mk [] "rid-9") (Except.ok "rid-10")
      "inst-1" "TCP" "22" "ACCEPT" "[Tencent SDK]" rfl).2.2⟩
